import Mathlib

/-!
Shallow embedding of the WireGuard provisioning subsystem of the
visco-api repository: the address allocator (`app/services/ip_manager.py`),
the peer-config lifecycle (`app/services/wireguard_service.py` and the
route handlers in `app/routers/wireguard_routes.py`), the config renderers,
and the privileged-helper synchronizer (`app/utils/system_utils.py`).

Modelling conventions:
* IPv4 addresses are `Nat` values (the 32-bit numeric value of the
  address).  The code stores the dotted string `f"{ip}/24"` in the
  database column `allocated_ip` and re-parses the host part
  (`ip.split('/')[0]`) before every scan; since formatting and parsing
  are exact inverses in `ipaddress`, the embedding keeps the numeric
  host in the record and exposes the stored string form through
  `format_allocated_ip` (the embedding of `f"{ip}/24"`).
* The database session is a `DBState`: the list of persisted
  `WireGuardConfig` rows plus the autoincrement counter for primary keys.
  `db.add`+`db.commit` conses a row with a fresh id; `db.delete` removes
  the row with that id.  A uniqueness-constraint violation raised by
  `db.commit` (the `allocated_ip` column is declared `unique=True` in
  `app/models.py`) is an explicit environment outcome.
* Key generation (`generate_wireguard_keypair`), the current time and
  the success of the privileged helper calls are inputs supplied by a
  `ProvisionEnv`, so the pure state transition of each request handler
  is a total function of state and environment.
-/

/-- Static deployment configuration (the fields of `Settings` in
`app/config/settings.py` that the WireGuard subsystem reads).  The subnet
CIDR `wg_subnet` is split into its network value and its mask length
(`wg_subnet_plen`).  `wg_server_ip` is the address used both to build the
public endpoint string and as the address the allocator skips;
`wg_server_ip_internal` is the daemon's in-subnet address declared in the
Network Configuration block of the settings file. -/
structure WGSettings where
  wg_subnet_network : Nat
  wg_subnet_plen : Nat
  wg_server_ip : Nat
  wg_server_ip_internal : Nat
  wg_client_start_ip : Nat
  wg_server_public_key : String
  wg_server_port : String
  wg_server_allowed_ips : String
  wg_persistent_keepalive : Nat
  deriving Repr, DecidableEq

/-- `str(ipaddress.IPv4Address(n))`: dotted-quad rendering of a 32-bit
address value. -/
def ipToString (ip : Nat) : String :=
  toString (ip / 16777216 % 256) ++ "." ++ toString (ip / 65536 % 256) ++ "."
    ++ toString (ip / 256 % 256) ++ "." ++ toString (ip % 256)

/-- The string the allocator returns and the database stores:
`f"{ip}/24"` (line 44 of `app/services/ip_manager.py`; the `/24` suffix is
a literal in the source). -/
def format_allocated_ip (ip : Nat) : String :=
  ipToString ip ++ "/24"

/-- `list(ipaddress.IPv4Network(...).hosts())` for a network of the given
numeric base and mask length, as ascending numeric values: for mask
lengths up to 30 the network and broadcast addresses are excluded; for
/31 and /32 `ipaddress` yields every address of the block. -/
def subnet_hosts (network plen : Nat) : List Nat :=
  if 31 ≤ plen then (List.range (2 ^ (32 - plen))).map (fun i => network + i)
  else (List.range (2 ^ (32 - plen) - 2)).map (fun i => network + 1 + i)

/-- The loop body condition of `IPManager.get_next_available_ip`
(`app/services/ip_manager.py` lines 34-45): the loop returns at the first
host that is not the configured server address (`self.server_ip`, parsed
from `settings.wg_server_ip`), is not below `self.client_start_ip`, and is
not in the allocated set. -/
def ip_candidate (cfg : WGSettings) (allocated : List Nat) (ip : Nat) : Bool :=
  !(ip == cfg.wg_server_ip) && !(ip < cfg.wg_client_start_ip) && !(allocated.contains ip)

/-- `IPManager.get_next_available_ip`, host-value part: scan the subnet's
hosts in ascending order and return the first candidate. -/
def get_next_available_ip_core (cfg : WGSettings) (allocated : List Nat) : Option Nat :=
  (subnet_hosts cfg.wg_subnet_network cfg.wg_subnet_plen).find? (ip_candidate cfg allocated)

/-- `IPManager.get_next_available_ip` as in the source, returning the
stored string `f"{ip}/24"` (or `None` when the subnet is exhausted). -/
def get_next_available_ip (cfg : WGSettings) (allocated : List Nat) : Option String :=
  match (subnet_hosts cfg.wg_subnet_network cfg.wg_subnet_plen).find?
      (ip_candidate cfg allocated) with
  | some ip => some (ipToString ip ++ "/24")
  | none => none

/-- `IPManager.get_available_ip_count`: `max(0, total_hosts - 1 - allocated_count)`
(one host subtracted for the server). -/
def get_available_ip_count (cfg : WGSettings) (allocated : List Nat) : Int :=
  max 0 (((subnet_hosts cfg.wg_subnet_network cfg.wg_subnet_plen).length : Int)
    - 1 - (allocated.length : Int))

/-- One row of the `wireguard_configs` table (`WireGuardConfig` in
`app/models.py`).  `allocated_ip` holds the numeric host value whose
stored string form is `format_allocated_ip allocated_ip`; `id` is the
autoincrement primary key. -/
structure WireGuardConfig where
  id : Nat
  user_id : Nat
  private_key : String
  public_key : String
  allocated_ip : Nat
  status : String
  expires_at : Nat
  deriving Repr, DecidableEq

/-- The persisted rows plus the autoincrement counter for the next
primary key. -/
structure DBState where
  records : List WireGuardConfig
  nextId : Nat
  deriving Repr, DecidableEq

/-- The empty database. -/
def emptyDB : DBState := { records := [], nextId := 1 }

/-- `WireGuardService.get_user_config`: the first row with this
`user_id` and status `"active"`. -/
def get_user_config (recs : List WireGuardConfig) (uid : Nat) : Option WireGuardConfig :=
  recs.find? (fun r => r.user_id == uid && r.status == "active")

/-- `IPManager.get_allocated_ips`: the allocated addresses of all rows
with status `"active"` (host values; the code maps the stored strings and
the scan parses the host part back out). -/
def get_allocated_ips (recs : List WireGuardConfig) : List Nat :=
  (recs.filter (fun r => r.status == "active")).map (fun r => r.allocated_ip)

/-- Outcome of `db.add(wg_config); db.commit()` in
`WireGuardService.create_config`: either the row is persisted, or the
commit raises an integrity error because the `unique=True` constraint on
`allocated_ip` (or on `user_id`) is violated by a concurrent writer.
The source wraps the commit in no try/except. -/
inductive PersistOutcome where
  | ok : PersistOutcome
  | uniqueViolation : PersistOutcome
  deriving Repr, DecidableEq

/-- Result of `WireGuardService.create_config`: the existing active row
(idempotent path), a freshly created row, `None` because the allocator
found no address, or an exception escaping the uncaught `db.commit`. -/
inductive CreateResult where
  | existing : WireGuardConfig → CreateResult
  | created : WireGuardConfig → CreateResult
  | noIp : CreateResult
  | persistRaised : CreateResult
  deriving Repr, DecidableEq

/-- Environment of one `POST /wireguard/generate-config` request: the key
pair `generate_wireguard_keypair` returns, the current time (days),
whether the commit of the new row succeeds, and whether
`append_peer_to_wg_config` succeeds. -/
structure ProvisionEnv where
  private_key : String
  public_key : String
  now : Nat
  persist : PersistOutcome
  syncOk : Bool
  deriving Repr, DecidableEq

/-- `WireGuardService.create_config` (`app/services/wireguard_service.py`
lines 13-49): return the existing active config if there is one;
otherwise generate a key pair, allocate the next address (returning
`noIp` when the allocator returns `None`), and persist a new row with
status `"active"` and expiry one year from now.  The new row's address is
the host value of the string the allocator returned. -/
def create_config (cfg : WGSettings) (env : ProvisionEnv) (s : DBState) (uid : Nat) :
    CreateResult × DBState :=
  match get_user_config s.records uid with
  | some existing => (CreateResult.existing existing, s)
  | none =>
    match get_next_available_ip_core cfg (get_allocated_ips s.records) with
    | none => (CreateResult.noIp, s)
    | some ip =>
      match env.persist with
      | PersistOutcome.uniqueViolation => (CreateResult.persistRaised, s)
      | PersistOutcome.ok =>
        let row : WireGuardConfig :=
          { id := s.nextId, user_id := uid, private_key := env.private_key,
            public_key := env.public_key, allocated_ip := ip, status := "active",
            expires_at := env.now + 365 }
        (CreateResult.created row, { records := row :: s.records, nextId := s.nextId + 1 })

/-- `WireGuardService.revoke_config`: delete the user's active config row
(by primary key), or report `false` when there is none. -/
def revoke_config (s : DBState) (uid : Nat) : Bool × DBState :=
  match get_user_config s.records uid with
  | none => (false, s)
  | some row =>
    (true, { records := s.records.filter (fun r => !(r.id == row.id)), nextId := s.nextId })

/-- Outcome of the `generate-config` route, one constructor per exit of
`generate_wireguard_config` in `app/routers/wireguard_routes.py`:
`ok` is the 200 response (built from the returned row), `noCapacity` the
409 "No available IP addresses in the subnet", `allocFailed` the 500
"Failed to allocate IP address", `syncFailed` the 500 "Failed to update
server WireGuard configuration" raised after the rollback, and
`persistRaised` an exception escaping the handler (no route code catches
a commit failure). -/
inductive ProvisionResult where
  | ok : WireGuardConfig → ProvisionResult
  | noCapacity : ProvisionResult
  | allocFailed : ProvisionResult
  | syncFailed : ProvisionResult
  | persistRaised : ProvisionResult
  deriving Repr, DecidableEq

/-- `generate_wireguard_config` (`app/routers/wireguard_routes.py` lines
28-95) for an authenticated target user `uid`: return the existing active
config unchanged if there is one; fail with 409 when
`get_available_ip_count` is non-positive; otherwise call `create_config`,
then `append_peer_to_wg_config`; if the append fails, delete the
just-created row and fail with the sync 500. -/
def generate_wireguard_config (cfg : WGSettings) (env : ProvisionEnv) (s : DBState)
    (uid : Nat) : ProvisionResult × DBState :=
  match get_user_config s.records uid with
  | some existing => (ProvisionResult.ok existing, s)
  | none =>
    if get_available_ip_count cfg (get_allocated_ips s.records) ≤ 0 then
      (ProvisionResult.noCapacity, s)
    else
      match create_config cfg env s uid with
      | (CreateResult.noIp, s1) => (ProvisionResult.allocFailed, s1)
      | (CreateResult.persistRaised, s1) => (ProvisionResult.persistRaised, s1)
      | (CreateResult.existing row, s1) =>
        if env.syncOk then (ProvisionResult.ok row, s1)
        else (ProvisionResult.syncFailed,
          { records := s1.records.filter (fun r => !(r.id == row.id)), nextId := s1.nextId })
      | (CreateResult.created row, s1) =>
        if env.syncOk then (ProvisionResult.ok row, s1)
        else (ProvisionResult.syncFailed,
          { records := s1.records.filter (fun r => !(r.id == row.id)), nextId := s1.nextId })

/-- Outcome of the `DELETE /wireguard/config` route
(`revoke_wireguard_config` in `app/routers/wireguard_routes.py` lines
131-172): 200 with the freed address, 404 when no active config exists,
500 when `remove_peer_from_wg_config` fails, and 500 when the subsequent
`revoke_config` reports failure. -/
inductive RevokeResult where
  | ok : Nat → RevokeResult
  | notFound : RevokeResult
  | removeFailed : RevokeResult
  | revokeFailed : RevokeResult
  deriving Repr, DecidableEq

/-- `revoke_wireguard_config` for target user `uid`, with `removeOk` the
outcome of the privileged-helper `remove` call: look up the active
config (404 when absent), ask the helper to remove the peer — on failure
surface the 500 with the database untouched — and only then delete the
row. -/
def revoke_wireguard_config (removeOk : Bool) (s : DBState) (uid : Nat) :
    RevokeResult × DBState :=
  match get_user_config s.records uid with
  | none => (RevokeResult.notFound, s)
  | some row =>
    if !removeOk then (RevokeResult.removeFailed, s)
    else
      match revoke_config s uid with
      | (false, s1) => (RevokeResult.revokeFailed, s1)
      | (true, s1) => (RevokeResult.ok row.allocated_ip, s1)

/-- `WireGuardService.generate_client_config_content`: the client-side
tunnel config rendered from a row and the static settings (the stored
address string is the `/24`-suffixed form). -/
def generate_client_config_content (cfg : WGSettings) (row : WireGuardConfig) : String :=
  "[Interface]\nPrivateKey = " ++ row.private_key
    ++ "\nAddress = " ++ format_allocated_ip row.allocated_ip
    ++ "\n\n[Peer]\nPublicKey = " ++ cfg.wg_server_public_key
    ++ "\nEndpoint = " ++ ipToString cfg.wg_server_ip ++ ":" ++ cfg.wg_server_port
    ++ "\nAllowedIPs = " ++ cfg.wg_server_allowed_ips
    ++ "\nPersistentKeepalive = " ++ toString cfg.wg_persistent_keepalive ++ "\n"

/-- `WireGuardService.generate_server_peer_config`: the server-side peer
stanza rendered from a row — its public key and stored address string. -/
def generate_server_peer_config (row : WireGuardConfig) : String :=
  "\n[Peer]\nPublicKey = " ++ row.public_key
    ++ "\nAllowedIPs = " ++ format_allocated_ip row.allocated_ip ++ "\n"

/-- Run a list of `generate-config` requests (user, environment) in
order, threading the database state. -/
def runProvisions (cfg : WGSettings) (reqs : List (Nat × ProvisionEnv)) (s : DBState) :
    DBState :=
  reqs.foldl (fun st req => (generate_wireguard_config cfg req.2 st req.1).2) s

/-- Outcome of the `subprocess.run([...], timeout=30)` helper invocation
in `append_peer_to_wg_config`: either the helper process returned an exit
code, or the call raised (`subprocess.TimeoutExpired` after 30 seconds,
or any other exception), which transfers control to the function's outer
`except` block. -/
inductive HelperOutcome where
  | exited : Nat → HelperOutcome
  | timedOut : HelperOutcome
  deriving Repr, DecidableEq

/-- Observable filesystem/process actions of `append_peer_to_wg_config`,
in program order: writing the staged temp file, invoking the privileged
helper, and attempting `os.remove` on the staged file. -/
inductive SysAction where
  | writeTemp : SysAction
  | runHelper : SysAction
  | removeTemp : SysAction
  deriving Repr, DecidableEq

/-- Environment of one `append_peer_to_wg_config` call: whether the
chosen temp directory has at least 10 MB free, whether the `open`/`write`
of the staged file succeeds (an `OSError` there returns `False` early),
and the helper invocation's outcome. -/
structure SysEnv where
  diskSpaceOk : Bool
  writeOk : Bool
  helper : HelperOutcome
  deriving Repr, DecidableEq

/-- `append_peer_to_wg_config` (`app/utils/system_utils.py` lines 38-91)
as its boolean result paired with the trace of attempted actions:
return `False` without writing when the disk-space check fails; return
`False` after a failed write; after `subprocess.run` returns an exit
code, remove the staged file (the file was just written, so
`os.path.exists` is true) and then return `returncode == 0`; when
`subprocess.run` raises (timeout or other), the outer `except Exception`
returns `False` directly — the cleanup lines are never reached. -/
def append_peer_to_wg_config (env : SysEnv) : Bool × List SysAction :=
  if !env.diskSpaceOk then (false, [])
  else if !env.writeOk then (false, [SysAction.writeTemp])
  else
    match env.helper with
    | HelperOutcome.timedOut =>
      (false, [SysAction.writeTemp, SysAction.runHelper])
    | HelperOutcome.exited code =>
      (code == 0, [SysAction.writeTemp, SysAction.runHelper, SysAction.removeTemp])

/-- `remove_peer_from_wg_config` (`app/utils/system_utils.py` lines
93-118): no staging file; the result is `True` exactly when the helper
ran and exited 0 and the disk-space precheck passed. -/
def remove_peer_from_wg_config (diskSpaceOk : Bool) (helper : HelperOutcome) : Bool :=
  if !diskSpaceOk then false
  else
    match helper with
    | HelperOutcome.timedOut => false
    | HelperOutcome.exited code => code == 0

/-- In a strictly ascending list, `find?` returns the least element
satisfying the predicate. -/
theorem find?_min_of_pairwise {p : Nat → Bool} :
    ∀ {l : List Nat}, l.Pairwise (· < ·) → ∀ {a : Nat}, l.find? p = some a →
      ∀ b ∈ l, p b = true → a ≤ b := by
  intro l
  induction l with
  | nil => intro _ a ha; simp at ha
  | cons x xs ih =>
    intro hpw a ha b hb hpb
    rcases List.pairwise_cons.mp hpw with ⟨hx, hxs⟩
    by_cases hpx : p x = true
    · rw [List.find?_cons_of_pos _ hpx] at ha
      cases ha
      rcases List.mem_cons.mp hb with rfl | hb
      · exact Nat.le_refl _
      · exact Nat.le_of_lt (hx b hb)
    · rw [List.find?_cons_of_neg _ (by simpa using hpx)] at ha
      rcases List.mem_cons.mp hb with rfl | hb
      · exact absurd hpb hpx
      · exact ih hxs ha b hb hpb

/-- The host list of a subnet is strictly ascending. -/
theorem subnet_hosts_pairwise (network plen : Nat) :
    (subnet_hosts network plen).Pairwise (· < ·) := by
  unfold subnet_hosts
  split
  · exact (List.pairwise_lt_range _).map _ (fun a b h => Nat.add_lt_add_left h _)
  · exact (List.pairwise_lt_range _).map _ (fun a b h => Nat.add_lt_add_left h _)

/-- The loop-body condition unfolded to a proposition. -/
theorem ip_candidate_iff (cfg : WGSettings) (allocated : List Nat) (j : Nat) :
    ip_candidate cfg allocated j = true ↔
      (j ≠ cfg.wg_server_ip ∧ cfg.wg_client_start_ip ≤ j ∧ j ∉ allocated) := by
  simp [ip_candidate, Nat.not_lt, and_assoc]

/-- C4 amended: `get_next_available_ip` returns the numerically lowest
host address of the subnet that is at or above the configured floor
(`wg_client_start_ip`), is not the configured `wg_server_ip` (the public
endpoint address — the only address the scan skips; the daemon's
in-subnet reserved address `wg_server_ip_internal` is not skipped, see
the counterexample), and is not in the allocated set; it returns `none`
exactly when no such address exists. -/
theorem get_next_available_ip_least (cfg : WGSettings) (allocated : List Nat) :
    (∀ ip, get_next_available_ip_core cfg allocated = some ip →
      ip ∈ subnet_hosts cfg.wg_subnet_network cfg.wg_subnet_plen ∧
      cfg.wg_client_start_ip ≤ ip ∧ ip ≠ cfg.wg_server_ip ∧ ip ∉ allocated ∧
      ∀ j ∈ subnet_hosts cfg.wg_subnet_network cfg.wg_subnet_plen,
        cfg.wg_client_start_ip ≤ j → j ≠ cfg.wg_server_ip → j ∉ allocated → ip ≤ j) ∧
    (get_next_available_ip_core cfg allocated = none ↔
      ∀ j ∈ subnet_hosts cfg.wg_subnet_network cfg.wg_subnet_plen,
        ¬(cfg.wg_client_start_ip ≤ j ∧ j ≠ cfg.wg_server_ip ∧ j ∉ allocated)) := by
  constructor
  · intro ip hip
    have hmem : ip ∈ subnet_hosts cfg.wg_subnet_network cfg.wg_subnet_plen :=
      List.mem_of_find?_eq_some hip
    have hcand := (ip_candidate_iff cfg allocated ip).mp (List.find?_some hip)
    refine ⟨hmem, hcand.2.1, hcand.1, hcand.2.2, ?_⟩
    intro j hj hj1 hj2 hj3
    exact find?_min_of_pairwise
      (subnet_hosts_pairwise cfg.wg_subnet_network cfg.wg_subnet_plen) hip j hj
      ((ip_candidate_iff cfg allocated j).mpr ⟨hj2, hj1, hj3⟩)
  · constructor
    · intro hnone j hj hc
      have := List.find?_eq_none.mp hnone j hj
      exact this ((ip_candidate_iff cfg allocated j).mpr ⟨hc.2.1, hc.1, hc.2.2⟩)
    · intro hall
      apply List.find?_eq_none.mpr
      intro j hj hc
      have := (ip_candidate_iff cfg allocated j).mp hc
      exact hall j hj ⟨this.2.1, this.1, this.2.2⟩

/-- A deployment following the configuration of the spec's worked
example, on a /29 so states stay small: subnet `10.0.0.0/29`, daemon
in-subnet address `10.0.0.1`, allocation floor `10.0.0.2`, public
endpoint address `203.0.113.5` (outside the subnet). -/
def cfgDemo : WGSettings :=
  { wg_subnet_network := 167772160, wg_subnet_plen := 29,
    wg_server_ip := 3405803781, wg_server_ip_internal := 167772161,
    wg_client_start_ip := 167772162,
    wg_server_public_key := "ServerPub=", wg_server_port := "51820",
    wg_server_allowed_ips := "10.0.0.0/24", wg_persistent_keepalive := 25 }

/-- A request environment in which every external step succeeds, with
the key pair tagged by `k`. -/
def demoEnv (k : String) : ProvisionEnv :=
  { private_key := "priv" ++ k, public_key := "pub" ++ k, now := 0,
    persist := PersistOutcome.ok, syncOk := true }

/-- State after provisioning users 1, 2 and 3 (addresses `10.0.0.2`,
`10.0.0.3`, `10.0.0.4` in order) and then revoking user 2. -/
def demoGapState : DBState :=
  (revoke_wireguard_config true
    (runProvisions cfgDemo [(1, demoEnv "A"), (2, demoEnv "B"), (3, demoEnv "C")] emptyDB)
    2).2

/-- Witness for C4 at the spec's gap-reuse scenario: with `10.0.0.2 <
10.0.0.3 < 10.0.0.4` allocated in order and `10.0.0.3` revoked, the next
scan returns `10.0.0.3`, and it is minimal among the candidates. -/
theorem get_next_available_ip_least_witness :
    get_next_available_ip_core cfgDemo (get_allocated_ips demoGapState.records)
        = some 167772163 ∧
      (167772163 ∈ subnet_hosts cfgDemo.wg_subnet_network cfgDemo.wg_subnet_plen ∧
       cfgDemo.wg_client_start_ip ≤ 167772163 ∧ 167772163 ≠ cfgDemo.wg_server_ip ∧
       167772163 ∉ get_allocated_ips demoGapState.records ∧
       ∀ j ∈ subnet_hosts cfgDemo.wg_subnet_network cfgDemo.wg_subnet_plen,
         cfgDemo.wg_client_start_ip ≤ j → j ≠ cfgDemo.wg_server_ip →
         j ∉ get_allocated_ips demoGapState.records → 167772163 ≤ j) :=
  ⟨by decide,
   (get_next_available_ip_least cfgDemo (get_allocated_ips demoGapState.records)).1
     167772163 (by decide)⟩

/-- The same deployment as `cfgDemo` except that the daemon's in-subnet
address (`wg_server_ip_internal`) is `10.0.0.3`, at or above the
allocation floor `10.0.0.2`.  The public endpoint address
(`wg_server_ip`) stays `203.0.113.5`. -/
def cfgReservedBug : WGSettings :=
  { cfgDemo with wg_server_ip_internal := 167772163 }

/-- State after two fully successful provisions (users 1 and 2) under
`cfgReservedBug`. -/
def reservedBugState : DBState :=
  runProvisions cfgReservedBug [(1, demoEnv "A"), (2, demoEnv "B")] emptyDB

/-- C1: evaluation at the failing input.  `IPManager` skips
`settings.wg_server_ip` — the public endpoint address — and never reads
`settings.wg_server_ip_internal`, the daemon's in-subnet address; so
when that reserved address lies at or above the allocation floor, a
plain provision sequence hands it to a tenant: after two provisions from
the empty state the active allocations are `10.0.0.3` and `10.0.0.2`,
and `10.0.0.3` is the daemon's reserved in-subnet address. -/
theorem reserved_internal_ip_allocated :
    cfgReservedBug.wg_server_ip_internal ∈ get_allocated_ips reservedBugState.records ∧
      get_allocated_ips reservedBugState.records = [167772163, 167772162] ∧
      cfgReservedBug.wg_server_ip_internal = 167772163 ∧
      cfgReservedBug.wg_client_start_ip ≤ cfgReservedBug.wg_server_ip_internal := by
  decide

/-- C4 counterexample: the scan does not skip the daemon's reserved
in-subnet address.  Under `cfgReservedBug` (reserved address
`wg_server_ip_internal = 10.0.0.3`, at the floor or above, distinct from
the skipped `wg_server_ip`), with only `10.0.0.2` allocated, the next
address returned is `10.0.0.3` — the daemon's reserved address itself —
refuting the claim that the returned address is never the daemon's
reserved address. -/
theorem next_available_returns_reserved_address :
    get_next_available_ip_core cfgReservedBug [167772162] = some 167772163 ∧
      cfgReservedBug.wg_server_ip_internal = 167772163 ∧
      cfgReservedBug.wg_server_ip ≠ 167772163 ∧
      cfgReservedBug.wg_client_start_ip ≤ 167772163 ∧
      get_next_available_ip cfgReservedBug [167772162] = some "10.0.0.3/24" := by
  decide

/-- C10: whenever the scan finds a host, `get_next_available_ip` returns
that host's dotted form suffixed with the literal `"/24"`, whatever the
configured subnet's actual mask length is. -/
theorem get_next_available_ip_slash24 (cfg : WGSettings) (allocated : List Nat) (ip : Nat)
    (h : get_next_available_ip_core cfg allocated = some ip) :
    get_next_available_ip cfg allocated = some (ipToString ip ++ "/24") := by
  unfold get_next_available_ip
  unfold get_next_available_ip_core at h
  rw [h]

/-- Witness for C10 on a subnet whose mask length is 29, not 24: the
returned string is still `"10.0.0.2/24"`. -/
theorem get_next_available_ip_slash24_witness :
    get_next_available_ip cfgDemo [] = some (ipToString 167772162 ++ "/24") ∧
      ipToString 167772162 ++ "/24" = "10.0.0.2/24" ∧ cfgDemo.wg_subnet_plen = 29 :=
  ⟨get_next_available_ip_slash24 cfgDemo [] 167772162 (by decide), by decide, by decide⟩

/-- C9: the server-side peer stanza depends only on the row's public key
and allocated address — two rows agreeing on those render identically,
whatever their private keys are, so the private key never influences the
server-side artifact. -/
theorem generate_server_peer_config_private_key_independent
    (r1 r2 : WireGuardConfig)
    (hpub : r1.public_key = r2.public_key)
    (hip : r1.allocated_ip = r2.allocated_ip) :
    generate_server_peer_config r1 = generate_server_peer_config r2 := by
  unfold generate_server_peer_config
  rw [hpub, hip]

/-- Witness for C9: two concrete rows with distinct private keys but the
same public key and address render the same stanza. -/
theorem generate_server_peer_config_private_key_independent_witness :
    generate_server_peer_config
        { id := 1, user_id := 1, private_key := "secretA", public_key := "pubX",
          allocated_ip := 167772162, status := "active", expires_at := 365 }
      = generate_server_peer_config
        { id := 2, user_id := 2, private_key := "secretB", public_key := "pubX",
          allocated_ip := 167772162, status := "active", expires_at := 400 } :=
  generate_server_peer_config_private_key_independent _ _ rfl rfl

/-- C8 counterexample: when the helper invocation times out (raises
`subprocess.TimeoutExpired`), control jumps to the outer `except` block
of `append_peer_to_wg_config` and the staged temp file is never removed,
even though the staged file was written. -/
theorem append_peer_timeout_skips_cleanup :
    append_peer_to_wg_config
        { diskSpaceOk := true, writeOk := true, helper := HelperOutcome.timedOut }
      = (false, [SysAction.writeTemp, SysAction.runHelper]) ∧
    SysAction.removeTemp ∉
      (append_peer_to_wg_config
        { diskSpaceOk := true, writeOk := true, helper := HelperOutcome.timedOut }).2 := by
  decide

/-- C8 amended: whenever the helper invocation returns an exit code —
zero or not — `append_peer_to_wg_config` attempts to remove the staged
temp file it wrote; only an invocation that raises (e.g. the 30-second
timeout) skips the cleanup. -/
theorem append_peer_cleanup_on_exit (env : SysEnv) (code : Nat)
    (hd : env.diskSpaceOk = true) (hw : env.writeOk = true)
    (hh : env.helper = HelperOutcome.exited code) :
    SysAction.removeTemp ∈ (append_peer_to_wg_config env).2 := by
  simp [append_peer_to_wg_config, hd, hw, hh]

/-- Witness for the amended C8 at a non-zero exit code. -/
theorem append_peer_cleanup_on_exit_witness :
    SysAction.removeTemp ∈
      (append_peer_to_wg_config
        { diskSpaceOk := true, writeOk := true, helper := HelperOutcome.exited 1 }).2 :=
  append_peer_cleanup_on_exit
    { diskSpaceOk := true, writeOk := true, helper := HelperOutcome.exited 1 }
    1 rfl rfl rfl

/-- A freshly consed active row for `uid` is what `get_user_config`
finds. -/
theorem get_user_config_cons_self (row : WireGuardConfig) (recs : List WireGuardConfig)
    (uid : Nat) (hu : row.user_id = uid) (hs : row.status = "active") :
    get_user_config (row :: recs) uid = some row := by
  unfold get_user_config
  rw [List.find?_cons_of_pos]
  simp [hu, hs]

/-- Inversion of the `existing` result of `create_config`. -/
theorem create_config_existing_inv (cfg : WGSettings) (env : ProvisionEnv) (s : DBState)
    (uid : Nat) (row : WireGuardConfig) (s' : DBState)
    (h : create_config cfg env s uid = (CreateResult.existing row, s')) :
    get_user_config s.records uid = some row ∧ s' = s := by
  unfold create_config at h
  cases hg : get_user_config s.records uid with
  | some e =>
    rw [hg] at h
    simp only [Prod.mk.injEq, CreateResult.existing.injEq] at h
    exact ⟨by rw [h.1], h.2.symm⟩
  | none =>
    rw [hg] at h
    cases hip : get_next_available_ip_core cfg (get_allocated_ips s.records) with
    | none => rw [hip] at h; simp at h
    | some ip =>
      rw [hip] at h
      cases hp : env.persist with
      | ok => rw [hp] at h; simp at h
      | uniqueViolation => rw [hp] at h; simp at h

/-- Inversion of the `created` result of `create_config`: the new row's
fields, the new state, and the facts that drove the branch. -/
theorem create_config_created_inv (cfg : WGSettings) (env : ProvisionEnv) (s : DBState)
    (uid : Nat) (row : WireGuardConfig) (s' : DBState)
    (h : create_config cfg env s uid = (CreateResult.created row, s')) :
    row.user_id = uid ∧ row.status = "active" ∧ row.id = s.nextId ∧
      row.private_key = env.private_key ∧ row.public_key = env.public_key ∧
      s'.records = row :: s.records ∧ s'.nextId = s.nextId + 1 ∧
      get_user_config s.records uid = none ∧
      get_next_available_ip_core cfg (get_allocated_ips s.records) = some row.allocated_ip := by
  unfold create_config at h
  cases hg : get_user_config s.records uid with
  | some e => rw [hg] at h; simp at h
  | none =>
    rw [hg] at h
    cases hip : get_next_available_ip_core cfg (get_allocated_ips s.records) with
    | none => rw [hip] at h; simp at h
    | some ip =>
      rw [hip] at h
      cases hp : env.persist with
      | uniqueViolation => rw [hp] at h; simp at h
      | ok =>
        rw [hp] at h
        simp only [Prod.mk.injEq, CreateResult.created.injEq] at h
        obtain ⟨hrow, hs'⟩ := h
        subst hrow
        subst hs'
        exact ⟨rfl, rfl, rfl, rfl, rfl, rfl, rfl, rfl, rfl⟩

/-- After a successful `generate-config` request that returned row `r`,
looking the user up in the resulting state finds exactly `r`. -/
theorem generate_ok_lookup (cfg : WGSettings) (env : ProvisionEnv) (s : DBState)
    (uid : Nat) (r : WireGuardConfig) (s1 : DBState)
    (h : generate_wireguard_config cfg env s uid = (ProvisionResult.ok r, s1)) :
    get_user_config s1.records uid = some r := by
  unfold generate_wireguard_config at h
  cases hg : get_user_config s.records uid with
  | some existing =>
    rw [hg] at h
    simp only [Prod.mk.injEq, ProvisionResult.ok.injEq] at h
    rw [← h.2, hg, h.1]
  | none =>
    rw [hg] at h
    by_cases hcap : get_available_ip_count cfg (get_allocated_ips s.records) ≤ 0
    · rw [if_pos hcap] at h; simp at h
    · rw [if_neg hcap] at h
      cases hc : create_config cfg env s uid with
      | mk cr s' =>
        rw [hc] at h
        cases cr with
        | noIp => simp at h
        | persistRaised => simp at h
        | existing row =>
          have hex := (create_config_existing_inv cfg env s uid row s' hc).1
          rw [hg] at hex
          cases hex
        | created row =>
          by_cases hs : env.syncOk = true
          · rw [hs] at h
            simp only [if_pos] at h
            simp only [Prod.mk.injEq, ProvisionResult.ok.injEq] at h
            obtain ⟨hrow, hs1⟩ := h
            obtain ⟨hu, hst, _, _, _, hrec, _, _, _⟩ :=
              create_config_created_inv cfg env s uid row s' hc
            rw [← hs1, hrec, ← hrow]
            exact get_user_config_cons_self row s.records uid hu hst
          · rw [eq_false_of_ne_true hs] at h
            simp at h

/-- C5: `provision` is idempotent.  If a `generate-config` request for
`uid` succeeded, returning row `r` and leaving state `s1`, then a second
request for `uid` — under any environment, in particular with a different
freshly generated key pair available — returns the very same row (same
allocated address, same public key, same private key) and leaves the
state untouched: no new row, no key rotation, no modification. -/
theorem generate_wireguard_config_idempotent (cfg : WGSettings)
    (env1 env2 : ProvisionEnv) (s : DBState) (uid : Nat) (r : WireGuardConfig)
    (s1 : DBState)
    (h : generate_wireguard_config cfg env1 s uid = (ProvisionResult.ok r, s1)) :
    generate_wireguard_config cfg env2 s1 uid = (ProvisionResult.ok r, s1) := by
  have hl := generate_ok_lookup cfg env1 s uid r s1 h
  unfold generate_wireguard_config
  rw [hl]

/-- Witness for C5: user 1 is provisioned from the empty database
(receiving `10.0.0.2` and the key pair `privA`/`pubA`); a repeat request
with a different candidate key pair (`privZ`/`pubZ`) returns the original
row and the unchanged state. -/
theorem generate_wireguard_config_idempotent_witness :
    generate_wireguard_config cfgDemo (demoEnv "Z")
        (runProvisions cfgDemo [(1, demoEnv "A")] emptyDB) 1
      = (ProvisionResult.ok
          { id := 1, user_id := 1, private_key := "privA", public_key := "pubA",
            allocated_ip := 167772162, status := "active", expires_at := 365 },
         runProvisions cfgDemo [(1, demoEnv "A")] emptyDB) :=
  generate_wireguard_config_idempotent cfgDemo (demoEnv "A") (demoEnv "Z") emptyDB 1
    { id := 1, user_id := 1, private_key := "privA", public_key := "pubA",
      allocated_ip := 167772162, status := "active", expires_at := 365 }
    (runProvisions cfgDemo [(1, demoEnv "A")] emptyDB) (by decide)

/-- Deleting the just-created row (whose primary key is the fresh
`s.nextId`) from the post-insert row list restores the original rows,
provided every pre-existing row has an older primary key. -/
theorem rollback_filter_restores (row : WireGuardConfig) (s : DBState)
    (hid : row.id = s.nextId) (hwf : ∀ x ∈ s.records, x.id < s.nextId) :
    (row :: s.records).filter (fun r => !(r.id == row.id)) = s.records := by
  rw [List.filter_cons_of_neg (by simp)]
  apply List.filter_eq_self.mpr
  intro x hx
  simp only [Bool.not_eq_eq_eq_not, Bool.not_true, beq_eq_false_iff_ne, ne_eq]
  rw [hid]
  exact Nat.ne_of_lt (hwf x hx)

/-- C2: rollback on synchronizer failure.  For a tenant with no active
record, in a state with capacity, when the address scan yields `a`, the
commit succeeds and `append_peer_to_wg_config` then fails, the request
surfaces the sync-failure error, the rows return to exactly what they
were (no record for the tenant exists), and the freed address `a` is
what the very next allocation scan returns. -/
theorem provision_sync_failure_rollback (cfg : WGSettings) (env : ProvisionEnv)
    (s : DBState) (uid : Nat) (a : Nat)
    (hnone : get_user_config s.records uid = none)
    (hwf : ∀ x ∈ s.records, x.id < s.nextId)
    (hcap : ¬ get_available_ip_count cfg (get_allocated_ips s.records) ≤ 0)
    (halloc : get_next_available_ip_core cfg (get_allocated_ips s.records) = some a)
    (hpersist : env.persist = PersistOutcome.ok)
    (hsync : env.syncOk = false) :
    generate_wireguard_config cfg env s uid
        = (ProvisionResult.syncFailed, { records := s.records, nextId := s.nextId + 1 }) ∧
      get_user_config ((generate_wireguard_config cfg env s uid).2).records uid = none ∧
      get_next_available_ip_core cfg
        (get_allocated_ips ((generate_wireguard_config cfg env s uid).2).records)
          = some a := by
  have hrow : (⟨s.nextId, uid, env.private_key, env.public_key, a, "active",
      env.now + 365⟩ : WireGuardConfig).id = s.nextId := rfl
  have hfil := rollback_filter_restores
    ⟨s.nextId, uid, env.private_key, env.public_key, a, "active", env.now + 365⟩
    s hrow hwf
  have hmain : generate_wireguard_config cfg env s uid
      = (ProvisionResult.syncFailed, { records := s.records, nextId := s.nextId + 1 }) := by
    unfold generate_wireguard_config create_config
    rw [hnone]
    rw [if_neg hcap]
    rw [halloc, hpersist, hsync]
    simp only []
    rw [hfil]
    simp
  refine ⟨hmain, ?_, ?_⟩
  · rw [hmain]; exact hnone
  · rw [hmain]; exact halloc

/-- State after one fully successful provision (user 1 holds
`10.0.0.2`). -/
def oneState : DBState := runProvisions cfgDemo [(1, demoEnv "A")] emptyDB

/-- A request environment whose commit succeeds but whose
`append_peer_to_wg_config` call fails. -/
def syncFailEnv : ProvisionEnv :=
  { private_key := "privB", public_key := "pubB", now := 0,
    persist := PersistOutcome.ok, syncOk := false }

/-- Witness for C2: user 2 is provisioned at `oneState` (address
`10.0.0.3` is chosen), the append to the daemon config fails, and the
request ends in the sync error with the rows restored and `10.0.0.3`
again the next address. -/
theorem provision_sync_failure_rollback_witness :
    generate_wireguard_config cfgDemo syncFailEnv oneState 2
        = (ProvisionResult.syncFailed,
           { records := oneState.records, nextId := oneState.nextId + 1 }) ∧
      get_user_config ((generate_wireguard_config cfgDemo syncFailEnv oneState 2).2).records 2
        = none ∧
      get_next_available_ip_core cfgDemo
        (get_allocated_ips ((generate_wireguard_config cfgDemo syncFailEnv oneState 2).2).records)
          = some 167772163 :=
  provision_sync_failure_rollback cfgDemo syncFailEnv oneState 2 167772163
    (by decide) (by decide) (by decide) (by decide) (by decide) (by decide)

/-- C3: revoke asks the synchronizer first.  For a tenant with an active
row: if the helper `remove` fails, the request surfaces the removal
error with the database untouched — the row stays, with status active,
and its address is still among the active allocations; only if the
removal succeeds is the row deleted (and the freed address reported). -/
theorem revoke_sync_first (removeOk : Bool) (s : DBState) (uid : Nat)
    (row : WireGuardConfig)
    (h : get_user_config s.records uid = some row) :
    (removeOk = false →
      revoke_wireguard_config removeOk s uid = (RevokeResult.removeFailed, s) ∧
      row ∈ s.records ∧ row.status = "active" ∧
      row.allocated_ip ∈ get_allocated_ips s.records) ∧
    (removeOk = true →
      revoke_wireguard_config removeOk s uid
        = (RevokeResult.ok row.allocated_ip,
           { records := s.records.filter (fun r => !(r.id == row.id)),
             nextId := s.nextId })) := by
  have hmem : row ∈ s.records := List.mem_of_find?_eq_some h
  have hp := List.find?_some h
  have hst : row.status = "active" := by
    simp only [Bool.and_eq_true, beq_iff_eq] at hp
    exact hp.2
  constructor
  · intro hr
    subst hr
    refine ⟨?_, hmem, hst, ?_⟩
    · unfold revoke_wireguard_config
      rw [h]
      simp
    · exact List.mem_map.mpr
        ⟨row, List.mem_filter.mpr ⟨hmem, by simp [hst]⟩, rfl⟩
  · intro hr
    subst hr
    unfold revoke_wireguard_config revoke_config
    rw [h]
    simp

/-- State after two fully successful provisions (users 1 and 2 hold
`10.0.0.2` and `10.0.0.3`). -/
def twoState : DBState := runProvisions cfgDemo [(1, demoEnv "A"), (2, demoEnv "B")] emptyDB

/-- Witness for C3: at `twoState`, revoking user 1 while the helper
`remove` fails surfaces the removal error, leaves both rows in place,
and user 1's address `10.0.0.2` stays among the active allocations. -/
theorem revoke_sync_first_witness :
    revoke_wireguard_config false twoState 1 = (RevokeResult.removeFailed, twoState) ∧
      ({ id := 1, user_id := 1, private_key := "privA", public_key := "pubA",
         allocated_ip := 167772162, status := "active", expires_at := 365 }
        : WireGuardConfig) ∈ twoState.records ∧
      ("active" : String) = "active" ∧
      (167772162 : Nat) ∈ get_allocated_ips twoState.records :=
  (revoke_sync_first false twoState 1
    { id := 1, user_id := 1, private_key := "privA", public_key := "pubA",
      allocated_ip := 167772162, status := "active", expires_at := 365 }
    (by decide)).1 rfl

/-- C6 amended: for a tenant with no active record, when
`get_available_ip_count` reports zero (or less) the request fails with
the 409 no-capacity error and the database is unchanged — no row is
created.  (A tenant who already holds an active record instead gets that
record back, also creating nothing; see the counterexample.) -/
theorem provision_no_capacity_fresh (cfg : WGSettings) (env : ProvisionEnv) (s : DBState)
    (uid : Nat)
    (hnone : get_user_config s.records uid = none)
    (hcap : get_available_ip_count cfg (get_allocated_ips s.records) ≤ 0) :
    generate_wireguard_config cfg env s uid = (ProvisionResult.noCapacity, s) := by
  unfold generate_wireguard_config
  rw [hnone]
  rw [if_pos hcap]

/-- State after five fully successful provisions: all five tenant
addresses `10.0.0.2`-`10.0.0.6` of the /29 are taken and
`get_available_ip_count` reports zero. -/
def fullState : DBState :=
  runProvisions cfgDemo
    [(1, demoEnv "A"), (2, demoEnv "B"), (3, demoEnv "C"), (4, demoEnv "D"), (5, demoEnv "E")]
    emptyDB

/-- C6 counterexample: at `fullState` the capacity reads zero, yet a
provision call for tenant 1 — who already holds an active record — does
not fail with the no-capacity error: it returns tenant 1's existing row
(the route's idempotent short-circuit runs before the capacity check).
No row is created either way. -/
theorem capacity_zero_existing_tenant_provision_succeeds :
    get_available_ip_count cfgDemo (get_allocated_ips fullState.records) = 0 ∧
      generate_wireguard_config cfgDemo (demoEnv "F") fullState 1
        = (ProvisionResult.ok
            { id := 1, user_id := 1, private_key := "privA", public_key := "pubA",
              allocated_ip := 167772162, status := "active", expires_at := 365 },
           fullState) ∧
      (generate_wireguard_config cfgDemo (demoEnv "F") fullState 1).1
        ≠ ProvisionResult.noCapacity := by
  decide

/-- Witness for the amended C6: the same exhausted state, but a fresh
tenant 6: the request fails with the no-capacity error and the state is
unchanged. -/
theorem provision_no_capacity_fresh_witness :
    generate_wireguard_config cfgDemo (demoEnv "F") fullState 6
      = (ProvisionResult.noCapacity, fullState) :=
  provision_no_capacity_fresh cfgDemo (demoEnv "F") fullState 6 (by decide) (by decide)

/-- A request environment whose `db.commit` hits the uniqueness
constraint on `allocated_ip` (a concurrent allocation raced to the same
address). -/
def conflictEnv : ProvisionEnv :=
  { private_key := "privX", public_key := "pubX", now := 0,
    persist := PersistOutcome.uniqueViolation, syncOk := true }

/-- C7: evaluation at the failing input.  At `oneState` there is free
capacity (4) and a free address (`10.0.0.3`), yet when the commit of the
new row raises the uniqueness violation, the request ends with the
exception propagating out of the handler (`persistRaised`) — no catch,
no retry with a fresh snapshot, no `NoCapacity`: `create_config` wraps
`db.commit()` in no error handling at all. -/
theorem persist_conflict_unhandled :
    generate_wireguard_config cfgDemo conflictEnv oneState 2
        = (ProvisionResult.persistRaised, oneState) ∧
      get_available_ip_count cfgDemo (get_allocated_ips oneState.records) = 4 ∧
      get_next_available_ip_core cfgDemo (get_allocated_ips oneState.records)
        = some 167772163 := by
  decide
